import Mathlib

/-
Shallow embedding of src/main.rs of the mgraphics repository.

The program creates a transparent overlay window, initializes a wgpu
rendering context and runs a winit event loop that reconfigures the
surface on resize, draws a triangle on redraw requests and exits on a
close request.  GPU objects (adapter, device, queue, surface) are opaque
handles here; the environment-dependent results of the asynchronous
adapter/device requests and of the preferred-format query are supplied
through an explicit `Env` record.  Rust u32 arithmetic is modelled with
checked subtraction (the default overflow-checks semantics, under which
an underflow aborts the process), and every `expect`/`unwrap`/`?` exit
path is an explicit `Except.error` carrying the corresponding
diagnostic.
-/

namespace MGraphics

/-- A GPU texture format, negotiated with the adapter at startup
(`Surface::get_preferred_format`); modelled as an opaque identifier. -/
structure TextureFormat where
  id : Nat
deriving DecidableEq

/-- Texture usage flags; the source only ever uses
`wgpu::TextureUsages::RENDER_ATTACHMENT` (main.rs line 150). -/
inductive TextureUsages where
  | RENDER_ATTACHMENT
deriving DecidableEq

/-- Surface presentation modes; the source uses
`wgpu::PresentMode::Mailbox` (main.rs line 154). -/
inductive PresentMode where
  | Immediate
  | Mailbox
  | Fifo
deriving DecidableEq

/-- wgpu::SurfaceConfiguration (main.rs lines 149 to 155). -/
structure SurfaceConfiguration where
  usage : TextureUsages
  format : TextureFormat
  width : Nat
  height : Nat
  present_mode : PresentMode
deriving DecidableEq

/-- Opaque logical GPU device handle. -/
structure Device where
  id : Nat
deriving DecidableEq

/-- Opaque command queue handle, paired with the device. -/
structure Queue where
  id : Nat
deriving DecidableEq

/-- Opaque rendering surface handle bound to the native window. -/
structure Surface where
  id : Nat
deriving DecidableEq

/-- The data of the render pipeline built in `RenderContext::new`
(main.rs lines 130 to 147): entry point names of the two shader stages,
the number of vertex buffer layouts and bind group layouts supplied
(both empty slices in the source), and the color target formats. -/
structure RenderPipeline where
  vertex_entry_point : String
  fragment_entry_point : String
  vertex_buffer_count : Nat
  bind_group_layout_count : Nat
  color_target_formats : List TextureFormat
deriving DecidableEq

/-- struct RenderContext (main.rs lines 76 to 82).  The extra field
`applied_config` models the wgpu-internal swapchain state set by each
`Surface::configure` call: the configuration last applied to the
surface (`none` before any configure, so texture acquisition fails). -/
structure RenderContext where
  surface : Surface
  surface_config : SurfaceConfiguration
  device : Device
  queue : Queue
  render_pipeline : RenderPipeline
  applied_config : Option SurfaceConfiguration
deriving DecidableEq

/-- A color as passed to a clear operation; wgpu::Color holds four f64
channels, and the only value the source uses is TRANSPARENT, all four
channels exactly zero, so channels are modelled as integers. -/
structure Color where
  r : Int
  g : Int
  b : Int
  a : Int
deriving DecidableEq

/-- wgpu::Color::TRANSPARENT. -/
def Color.TRANSPARENT : Color := ⟨0, 0, 0, 0⟩

/-- Load operation of a render pass color attachment. -/
inductive LoadOp where
  | Clear (color : Color)
  | Load
deriving DecidableEq

/-- One color attachment of a render pass (main.rs lines 183 to 190). -/
structure ColorAttachment where
  load : LoadOp
  store : Bool
  has_resolve_target : Bool
deriving DecidableEq

/-- One draw call: `rpass.draw(0..3, 0..1)` has first_vertex 0,
vertex_count 3, first_instance 0, instance_count 1. -/
structure DrawCall where
  first_vertex : Nat
  vertex_count : Nat
  first_instance : Nat
  instance_count : Nat
deriving DecidableEq

/-- Commands recorded inside a render pass. -/
inductive PassCmd where
  | set_pipeline (p : RenderPipeline)
  | draw_call (d : DrawCall)
deriving DecidableEq

/-- One render pass of a command encoder. -/
structure RenderPass where
  color_attachments : List ColorAttachment
  has_depth_stencil : Bool
  cmds : List PassCmd
deriving DecidableEq

/-- The observable record of one frame produced by `draw` (main.rs
lines 169 to 199): dimensions of the acquired surface texture, the
render passes recorded in the single command encoder, the number of
command buffers submitted to the queue, and whether the acquired
texture was presented. -/
structure Frame where
  tex_width : Nat
  tex_height : Nat
  passes : List RenderPass
  submitted : Nat
  presented : Bool
deriving DecidableEq

/-- The frame that `draw` records when the surface texture is acquired
from a surface whose applied configuration is `cfg`. -/
def frameFor (ctx : RenderContext) (cfg : SurfaceConfiguration) : Frame :=
  { tex_width := cfg.width
    tex_height := cfg.height
    passes :=
      [{ color_attachments :=
           [{ load := LoadOp.Clear Color.TRANSPARENT
              store := true
              has_resolve_target := false }]
         has_depth_stencil := false
         cmds := [PassCmd.set_pipeline ctx.render_pipeline,
                  PassCmd.draw_call ⟨0, 3, 0, 1⟩] }]
    submitted := 1
    presented := true }

/-- fn draw (main.rs lines 169 to 199).  `Surface::get_current_texture`
succeeds exactly when a configuration has been applied to the surface;
on failure the source panics via `expect`, modelled as `none`.  On
success the call records one encoder with one render pass (one color
attachment clearing to transparent and storing, no depth or stencil),
sets the pipeline, draws vertices 0..3 and instances 0..1, submits the
single finished command buffer and presents the acquired texture. -/
def draw (ctx : RenderContext) : Option Frame :=
  match ctx.applied_config with
  | none => none
  | some cfg => some (frameFor ctx cfg)

/-- Window events as dispatched by the closure in `run` (main.rs lines
54 to 72): `WindowEvent::Resized`, `Event::RedrawRequested`,
`WindowEvent::CloseRequested`, and everything matched by `_`. -/
inductive Event where
  | Resized (width height : Nat)
  | RedrawRequested
  | CloseRequested
  | Other
deriving DecidableEq

/-- Observable effects of one event dispatch: a `Surface::configure`
call with the given configuration, or a completed `draw` cycle. -/
inductive Action where
  | Reconfigured (cfg : SurfaceConfiguration)
  | Rendered (f : Frame)
deriving DecidableEq

/-- The `WindowEvent::Resized` arm (main.rs lines 55 to 63): write the
event size into `surface_config.width` and `surface_config.height` and
reapply the configuration to the surface.  No validation is performed
on the incoming size. -/
def handleResize (ctx : RenderContext) (width height : Nat) : RenderContext :=
  let cfg := { ctx.surface_config with width := width, height := height }
  { ctx with surface_config := cfg, applied_config := some cfg }

/-- Result of dispatching one event: continue with a new context state
and a list of observable actions, exit the loop (`ControlFlow::Exit`),
or abort the process (a panic inside the handler). -/
inductive StepResult where
  | next (ctx : RenderContext) (acts : List Action)
  | exit
  | fatal (msg : String)
deriving DecidableEq

/-- One invocation of the event closure in `run` (main.rs lines 52 to
73).  Resized updates and reapplies the surface configuration;
RedrawRequested calls `draw` (whose `expect` aborts when texture
acquisition fails); CloseRequested sets `ControlFlow::Exit`; all other
events are ignored. -/
def handleEvent (ctx : RenderContext) : Event → StepResult
  | Event.Resized w h =>
    let ctx2 := handleResize ctx w h
    StepResult.next ctx2 [Action.Reconfigured ctx2.surface_config]
  | Event.RedrawRequested =>
    match draw ctx with
    | some f => StepResult.next ctx [Action.Rendered f]
    | none => StepResult.fatal "Failed to acquire next swap chain texture"
  | Event.CloseRequested => StepResult.exit
  | Event.Other => StepResult.next ctx []

/-- Final status of the event loop over a finite event list: still
running (waiting for further events), terminated by a close request
(`ControlFlow::Exit` makes winit stop delivering events and return), or
aborted by a panic. -/
inductive LoopStatus where
  | Running
  | Terminated
  | Panicked (msg : String)
deriving DecidableEq

/-- The outcome of running the event loop on a finite event list. -/
structure LoopResult where
  ctx : RenderContext
  trace : List Action
  status : LoopStatus
deriving DecidableEq

/-- The event loop of `run`: events are delivered one at a time in
arrival order and dispatched synchronously; once `ControlFlow::Exit` is
set by the CloseRequested arm the loop returns and later events are
never dispatched, and a panic likewise ends the process. -/
def runLoop (ctx : RenderContext) : List Event → LoopResult
  | [] => ⟨ctx, [], LoopStatus.Running⟩
  | e :: es =>
    match handleEvent ctx e with
    | StepResult.next ctx2 acts =>
      let r := runLoop ctx2 es
      ⟨r.ctx, acts ++ r.trace, r.status⟩
    | StepResult.exit => ⟨ctx, [], LoopStatus.Terminated⟩
    | StepResult.fatal msg => ⟨ctx, [], LoopStatus.Panicked msg⟩

/-- Size of a monitor or window in physical pixels (u32 fields). -/
structure MonitorSize where
  width : Nat
  height : Nat
deriving DecidableEq

/-- The ways the program exits fatally before or during startup. -/
inductive RunError where
  | NoPrimaryMonitor
  | SubtractOverflow
  | TryFromIntError
  | AdapterNotFound
  | DeviceRequestFailed
  | NoPreferredFormat
deriving DecidableEq

/-- The human-readable diagnostic attached to each fatal exit, as the
corresponding `anyhow!` message, panic message or `expect` message in
the source. -/
def RunError.message : RunError → String
  | RunError.NoPrimaryMonitor => "primary monitor is not found"
  | RunError.SubtractOverflow => "attempt to subtract with overflow"
  | RunError.TryFromIntError => "out of range integral type conversion attempted"
  | RunError.AdapterNotFound => "Failed to find an appropriate adapter"
  | RunError.DeviceRequestFailed => "Failed to create device"
  | RunError.NoPreferredFormat => "no preferred surface format"

/-- Largest u32 value. -/
def u32Max : Nat := 4294967295

/-- Largest i32 value. -/
def i32Max : Nat := 2147483647

/-- Rust u32 subtraction under the default overflow-checks semantics:
an underflow is a panic (abort), otherwise the exact difference. -/
def u32CheckedSub (a b : Nat) : Except RunError Nat :=
  if a < b then Except.error RunError.SubtractOverflow
  else Except.ok (a - b)

/-- `TryInto::<i32>::try_into` on a u32 value: succeeds exactly when
the value fits in an i32, otherwise the error propagated by `?`. -/
def u32TryIntoI32 (v : Nat) : Except RunError Int :=
  if v ≤ i32Max then Except.ok (v : Int)
  else Except.error RunError.TryFromIntError

/-- The window produced by `create_window`: requested position,
requested inner size and transparency flag. -/
structure Window where
  pos_x : Int
  pos_y : Int
  width : Nat
  height : Nat
  transparent : Bool
deriving DecidableEq

/-- fn create_window (main.rs lines 17 to 43).  Fails when no primary
monitor exists; the requested inner size is fixed at 1024 by 128; the
horizontal position is `(primary_size.width - size.width) / 2` as u32
arithmetic converted to i32 via `try_into()?`, the vertical position
is 8; the window is built transparent. -/
def create_window (primary_monitor : Option MonitorSize) : Except RunError Window :=
  match primary_monitor with
  | none => Except.error RunError.NoPrimaryMonitor
  | some primary =>
    let size : MonitorSize := ⟨1024, 128⟩
    match u32CheckedSub primary.width size.width with
    | Except.error e => Except.error e
    | Except.ok diff =>
      match u32TryIntoI32 (diff / 2) with
      | Except.error e => Except.error e
      | Except.ok px =>
        Except.ok
          { pos_x := px
            pos_y := 8
            width := size.width
            height := size.height
            transparent := true }

/-- GPU power preference; `wgpu::PowerPreference::default()` is the
low-power (power-efficient) variant. -/
inductive PowerPreference where
  | LowPower
  | HighPerformance
deriving DecidableEq

/-- Default power preference. -/
def PowerPreference.default : PowerPreference := PowerPreference.LowPower

/-- wgpu::RequestAdapterOptions as built in `RenderContext::new`
(main.rs lines 97 to 101). -/
structure RequestAdapterOptions where
  power_preference : PowerPreference
  compatible_surface : Option Surface
  force_fallback_adapter : Bool
deriving DecidableEq

/-- The surface handle created from the window in `RenderContext::new`
(main.rs line 94); the program only ever creates this one surface. -/
def theSurface : Surface := ⟨0⟩

/-- The adapter options the source passes to `request_adapter`:
default power preference, compatible with the created surface, and no
fallback (software) adapter permitted. -/
def requestAdapterOptions : RequestAdapterOptions :=
  { power_preference := PowerPreference.default
    compatible_surface := some theSurface
    force_fallback_adapter := false }

/-- A GPU adapter handle; it carries the result of the
`get_preferred_format` query made against it (main.rs line 128). -/
structure Adapter where
  preferred_format : Option TextureFormat
deriving DecidableEq

/-- The environment-dependent outcomes consumed during startup: the
primary monitor query, and the results of the asynchronous adapter and
device requests. -/
structure Env where
  primary_monitor : Option MonitorSize
  request_adapter : RequestAdapterOptions → Option Adapter
  request_device : Adapter → Option (Device × Queue)

/-- RenderContext::new (main.rs lines 85 to 166).  Creates the surface
from the window, requests an adapter (panicking when none is found),
requests a device and queue (panicking on failure), queries the
preferred surface format (unwrap), builds the pipeline whose single
color target uses that format and whose vertex and fragment stages are
the `vs_main` and `fs_main` entry points with no vertex buffers and no
bind group layouts, builds the surface configuration with
render-attachment usage, the same format, the window inner size and
Mailbox presentation, and applies it to the surface. -/
def RenderContext.new (env : Env) (window : Window) : Except RunError RenderContext :=
  let window_size : Nat × Nat := (window.width, window.height)
  let surface : Surface := theSurface
  match env.request_adapter requestAdapterOptions with
  | none => Except.error RunError.AdapterNotFound
  | some adapter =>
    match env.request_device adapter with
    | none => Except.error RunError.DeviceRequestFailed
    | some (device, queue) =>
      match adapter.preferred_format with
      | none => Except.error RunError.NoPreferredFormat
      | some swapchain_format =>
        let render_pipeline : RenderPipeline :=
          { vertex_entry_point := "vs_main"
            fragment_entry_point := "fs_main"
            vertex_buffer_count := 0
            bind_group_layout_count := 0
            color_target_formats := [swapchain_format] }
        let surface_config : SurfaceConfiguration :=
          { usage := TextureUsages.RENDER_ATTACHMENT
            format := swapchain_format
            width := window_size.1
            height := window_size.2
            present_mode := PresentMode.Mailbox }
        Except.ok
          { surface := surface
            surface_config := surface_config
            device := device
            queue := queue
            render_pipeline := render_pipeline
            applied_config := some surface_config }

/-- fn run (main.rs lines 45 to 74): create the window, initialize the
render context (awaited to completion before the loop starts), then
run the event loop.  Any startup failure is fatal and the loop is
never entered. -/
def run (env : Env) (events : List Event) : Except RunError LoopResult :=
  match create_window env.primary_monitor with
  | Except.error e => Except.error e
  | Except.ok window =>
    match RenderContext.new env window with
    | Except.error e => Except.error e
    | Except.ok ctx => Except.ok (runLoop ctx events)

/-- An example texture format for concrete evaluations. -/
def sampleFormat : TextureFormat := ⟨7⟩

/-- An environment in which startup fully succeeds. -/
def envGood : Env :=
  { primary_monitor := some ⟨1920, 1080⟩
    request_adapter := fun _ => some { preferred_format := some sampleFormat }
    request_device := fun _ => some (⟨1⟩, ⟨1⟩) }

/-- An environment in which no compatible adapter exists. -/
def envNoAdapter : Env :=
  { primary_monitor := some ⟨1920, 1080⟩
    request_adapter := fun _ => none
    request_device := fun _ => none }

/-- An environment in which the device request fails. -/
def envNoDevice : Env :=
  { primary_monitor := some ⟨1920, 1080⟩
    request_adapter := fun _ => some { preferred_format := some sampleFormat }
    request_device := fun _ => none }

/-- The window `create_window` builds on a 1920 by 1080 display. -/
def sampleWindow : Window :=
  { pos_x := 448, pos_y := 8, width := 1024, height := 128, transparent := true }

/-- The surface configuration `RenderContext.new` builds from
`sampleWindow` in `envGood`. -/
def sampleCfg : SurfaceConfiguration :=
  { usage := TextureUsages.RENDER_ATTACHMENT
    format := sampleFormat
    width := 1024
    height := 128
    present_mode := PresentMode.Mailbox }

/-- The context `RenderContext.new` produces from `sampleWindow` in
`envGood`. -/
def sampleInitCtx : RenderContext :=
  { surface := theSurface
    surface_config := sampleCfg
    device := ⟨1⟩
    queue := ⟨1⟩
    render_pipeline :=
      { vertex_entry_point := "vs_main"
        fragment_entry_point := "fs_main"
        vertex_buffer_count := 0
        bind_group_layout_count := 0
        color_target_formats := [sampleFormat] }
    applied_config := some sampleCfg }

/-- Dispatching any event leaves the render pipeline and the surface
configuration format of the context unchanged: the Resized arm only
touches width and height, and no other arm writes the context. -/
theorem runLoop_preserves_pipeline_and_format (ctx : RenderContext) (es : List Event) :
    (runLoop ctx es).ctx.render_pipeline = ctx.render_pipeline ∧
    (runLoop ctx es).ctx.surface_config.format = ctx.surface_config.format := by
  induction es generalizing ctx with
  | nil => exact ⟨rfl, rfl⟩
  | cons e es ih =>
    cases e with
    | Resized w h =>
      obtain ⟨h1, h2⟩ := ih (handleResize ctx w h)
      constructor
      · simpa [runLoop, handleEvent, handleResize] using h1
      · simpa [runLoop, handleEvent, handleResize] using h2
    | RedrawRequested =>
      cases hac : ctx.applied_config with
      | none => simp [runLoop, handleEvent, draw, hac]
      | some cfg =>
        obtain ⟨h1, h2⟩ := ih ctx
        constructor
        · simpa [runLoop, handleEvent, draw, hac] using h1
        · simpa [runLoop, handleEvent, draw, hac] using h2
    | CloseRequested => exact ⟨rfl, rfl⟩
    | Other =>
      obtain ⟨h1, h2⟩ := ih ctx
      constructor
      · simpa [runLoop, handleEvent] using h1
      · simpa [runLoop, handleEvent] using h2

/-- A successfully constructed context has its pipeline color target
format equal to its surface configuration format, and the built
configuration applied to the surface. -/
theorem new_ok_formats (env : Env) (window : Window) (ctx0 : RenderContext)
    (h : RenderContext.new env window = Except.ok ctx0) :
    ctx0.render_pipeline.color_target_formats = [ctx0.surface_config.format] ∧
    ctx0.applied_config = some ctx0.surface_config := by
  unfold RenderContext.new at h
  cases ha : env.request_adapter requestAdapterOptions with
  | none => simp [ha] at h
  | some adapter =>
    simp only [ha] at h
    cases hd : env.request_device adapter with
    | none => simp [hd] at h
    | some dq =>
      obtain ⟨device, queue⟩ := dq
      simp only [hd] at h
      cases hf : adapter.preferred_format with
      | none => simp [hf] at h
      | some fmt =>
        simp only [hf, Except.ok.injEq] at h
        subst h
        exact ⟨rfl, rfl⟩

/-- On a display at least as wide as the requested window,
`create_window` succeeds and centers the window horizontally. -/
theorem create_window_ok (W H : Nat) (h1 : 1024 ≤ W) (h2 : W ≤ u32Max) :
    create_window (some ⟨W, H⟩) =
      Except.ok
        { pos_x := (((W - 1024) / 2 : Nat) : Int)
          pos_y := 8
          width := 1024
          height := 128
          transparent := true } := by
  have hb : ¬ W < 1024 := by omega
  have hc : (W - 1024) / 2 ≤ i32Max := by
    unfold u32Max at h2
    unfold i32Max
    omega
  simp [create_window, u32CheckedSub, u32TryIntoI32, hb, hc]

/-- C1: for every positive width W and height H supplied to the
Resized handler, the stored surface configuration afterwards has width
exactly W and height exactly H, and handling the same resize twice in
succession leaves the same final context state as handling it once. -/
theorem reconfigure_stores_size_and_idempotent (ctx : RenderContext) (W H : Nat)
    (_hW : 0 < W) (_hH : 0 < H) :
    (handleResize ctx W H).surface_config.width = W ∧
    (handleResize ctx W H).surface_config.height = H ∧
    handleResize (handleResize ctx W H) W H = handleResize ctx W H :=
  ⟨rfl, rfl, rfl⟩

/-- Witness for C1 at a concrete context and size 800 by 600. -/
theorem reconfigure_stores_size_and_idempotent_witness :
    (handleResize sampleInitCtx 800 600).surface_config.width = 800 ∧
    (handleResize sampleInitCtx 800 600).surface_config.height = 600 ∧
    handleResize (handleResize sampleInitCtx 800 600) 800 600 =
      handleResize sampleInitCtx 800 600 :=
  reconfigure_stores_size_and_idempotent sampleInitCtx 800 600 (by decide) (by decide)

/-- C2: when a resize event with size W by H is immediately followed
by a redraw request, the frame drawn by that redraw is produced under
the updated surface configuration, whose width is W and height is H. -/
theorem resize_then_redraw_uses_new_size (ctx : RenderContext) (W H : Nat)
    (rest : List Event) :
    ∃ f : Frame,
      f.tex_width = W ∧ f.tex_height = H ∧
      (runLoop ctx (Event.Resized W H :: Event.RedrawRequested :: rest)).trace =
        Action.Reconfigured (handleResize ctx W H).surface_config ::
          Action.Rendered f :: (runLoop (handleResize ctx W H) rest).trace := by
  refine ⟨frameFor (handleResize ctx W H) (handleResize ctx W H).surface_config,
    rfl, rfl, ?_⟩
  simp [runLoop, handleEvent, draw, handleResize]

/-- C3: in every state reachable by the event loop from a successfully
initialized context, the pipeline color target format equals the
surface configuration format, and neither the pipeline nor the
configuration format is ever modified after construction. -/
theorem pipeline_format_matches_surface_format (env : Env) (window : Window)
    (ctx0 : RenderContext) (events : List Event)
    (h : RenderContext.new env window = Except.ok ctx0) :
    (runLoop ctx0 events).ctx.render_pipeline.color_target_formats =
      [(runLoop ctx0 events).ctx.surface_config.format] ∧
    (runLoop ctx0 events).ctx.render_pipeline = ctx0.render_pipeline ∧
    (runLoop ctx0 events).ctx.surface_config.format = ctx0.surface_config.format := by
  obtain ⟨hp, hf⟩ := runLoop_preserves_pipeline_and_format ctx0 events
  obtain ⟨h0, _⟩ := new_ok_formats env window ctx0 h
  exact ⟨by rw [hp, hf, h0], hp, hf⟩

/-- Witness for C3: the concrete environment `envGood`, the window it
creates, and a resize event. -/
theorem pipeline_format_matches_surface_format_witness :
    (runLoop sampleInitCtx [Event.Resized 3 4]).ctx.render_pipeline.color_target_formats =
      [(runLoop sampleInitCtx [Event.Resized 3 4]).ctx.surface_config.format] ∧
    (runLoop sampleInitCtx [Event.Resized 3 4]).ctx.render_pipeline =
      sampleInitCtx.render_pipeline ∧
    (runLoop sampleInitCtx [Event.Resized 3 4]).ctx.surface_config.format =
      sampleInitCtx.surface_config.format :=
  pipeline_format_matches_surface_format envGood sampleWindow sampleInitCtx
    [Event.Resized 3 4] rfl

/-- C4: with a configured surface, `draw` acquires the texture and
records exactly one render pass with a single color attachment loading
by a clear to fully transparent and storing, no depth or stencil, one
pipeline bind followed by one draw of 3 vertices and 1 instance with
no offsets, one submitted command buffer and one present; and n
consecutive redraws with no intervening resize produce n such
identical independent cycles. -/
theorem render_frame_performs_clear_draw_present_cycle (ctx : RenderContext)
    (cfg : SurfaceConfiguration) (n : Nat) (h : ctx.applied_config = some cfg) :
    ∃ f : Frame,
      draw ctx = some f ∧
      f.passes =
        [{ color_attachments :=
             [{ load := LoadOp.Clear Color.TRANSPARENT
                store := true
                has_resolve_target := false }]
           has_depth_stencil := false
           cmds := [PassCmd.set_pipeline ctx.render_pipeline,
                    PassCmd.draw_call ⟨0, 3, 0, 1⟩] }] ∧
      f.submitted = 1 ∧ f.presented = true ∧
      f.tex_width = cfg.width ∧ f.tex_height = cfg.height ∧
      (runLoop ctx (List.replicate n Event.RedrawRequested)).trace =
        List.replicate n (Action.Rendered f) := by
  refine ⟨frameFor ctx cfg, by simp [draw, h], rfl, rfl, rfl, rfl, rfl, ?_⟩
  induction n with
  | zero => simp [runLoop]
  | succ n ih =>
    simp only [List.replicate_succ]
    simp [runLoop, handleEvent, draw, h, ih]

/-- Witness for C4 at the concrete initialized context and two
consecutive redraw requests. -/
theorem render_frame_performs_clear_draw_present_cycle_witness :
    ∃ f : Frame,
      draw sampleInitCtx = some f ∧
      f.passes =
        [{ color_attachments :=
             [{ load := LoadOp.Clear Color.TRANSPARENT
                store := true
                has_resolve_target := false }]
           has_depth_stencil := false
           cmds := [PassCmd.set_pipeline sampleInitCtx.render_pipeline,
                    PassCmd.draw_call ⟨0, 3, 0, 1⟩] }] ∧
      f.submitted = 1 ∧ f.presented = true ∧
      f.tex_width = sampleCfg.width ∧ f.tex_height = sampleCfg.height ∧
      (runLoop sampleInitCtx (List.replicate 2 Event.RedrawRequested)).trace =
        List.replicate 2 (Action.Rendered f) :=
  render_frame_performs_clear_draw_present_cycle sampleInitCtx sampleCfg 2 rfl

/-- C5: on a primary display strictly narrower than the 1024 pixel
window width, `create_window` fails at the centering arithmetic, an
overflow of the u32 subtraction, before any window is built. -/
theorem narrow_display_fails_before_window_creation (W H : Nat) (h : W < 1024) :
    create_window (some ⟨W, H⟩) = Except.error RunError.SubtractOverflow := by
  simp [create_window, u32CheckedSub, h]

/-- Witness for C5 on a 640 by 480 display. -/
theorem narrow_display_fails_before_window_creation_witness :
    create_window (some ⟨640, 480⟩) = Except.error RunError.SubtractOverflow :=
  narrow_display_fails_before_window_creation 640 480 (by decide)

/-- C6: on a primary display of width at least 1024, the window is
created at horizontal position floor((display width minus 1024) / 2),
vertical position 8, with inner size 1024 by 128. -/
theorem window_position_centered_on_wide_display (W H : Nat)
    (h1 : 1024 ≤ W) (h2 : W ≤ u32Max) :
    create_window (some ⟨W, H⟩) =
      Except.ok
        { pos_x := (((W - 1024) / 2 : Nat) : Int)
          pos_y := 8
          width := 1024
          height := 128
          transparent := true } :=
  create_window_ok W H h1 h2

/-- Witness for C6 on a 1920 by 1080 display. -/
theorem window_position_centered_on_wide_display_witness :
    create_window (some ⟨1920, 1080⟩) =
      Except.ok
        { pos_x := (((1920 - 1024) / 2 : Nat) : Int)
          pos_y := 8
          width := 1024
          height := 128
          transparent := true } :=
  window_position_centered_on_wide_display 1920 1080 (by decide) (by decide)

/-- C7: a close request delivered at any point while the loop is
running (in any context state whose surface is configured, so that no
redraw aborts first) terminates the loop, and the events after it are
never dispatched: the whole run is identical to the run that ends at
the close request. -/
theorem close_requested_terminates_loop (ctx : RenderContext) (es1 es2 : List Event)
    (h : ctx.applied_config.isSome = true) :
    (runLoop ctx (es1 ++ Event.CloseRequested :: es2)).status = LoopStatus.Terminated ∧
    runLoop ctx (es1 ++ Event.CloseRequested :: es2) =
      runLoop ctx (es1 ++ [Event.CloseRequested]) := by
  induction es1 generalizing ctx with
  | nil => exact ⟨rfl, rfl⟩
  | cons e es ih =>
    cases e with
    | Resized w h2 =>
      obtain ⟨h1, heq⟩ := ih (handleResize ctx w h2) (by simp [handleResize])
      constructor
      · simpa [runLoop, handleEvent] using h1
      · simp only [List.cons_append]
        simp [runLoop, handleEvent, heq]
    | RedrawRequested =>
      obtain ⟨cfg, hac⟩ := Option.isSome_iff_exists.mp h
      obtain ⟨h1, heq⟩ := ih ctx h
      constructor
      · simpa [runLoop, handleEvent, draw, hac] using h1
      · simp only [List.cons_append]
        simp [runLoop, handleEvent, draw, hac, heq]
    | CloseRequested => exact ⟨rfl, rfl⟩
    | Other =>
      obtain ⟨h1, heq⟩ := ih ctx h
      constructor
      · simpa [runLoop, handleEvent] using h1
      · simp only [List.cons_append]
        simp [runLoop, handleEvent, heq]

/-- Witness for C7: a close request after an ignored event, followed
by a resize that is never dispatched. -/
theorem close_requested_terminates_loop_witness :
    (runLoop sampleInitCtx
      ([Event.Other] ++ Event.CloseRequested :: [Event.Resized 9 9])).status =
      LoopStatus.Terminated ∧
    runLoop sampleInitCtx
      ([Event.Other] ++ Event.CloseRequested :: [Event.Resized 9 9]) =
      runLoop sampleInitCtx ([Event.Other] ++ [Event.CloseRequested]) :=
  close_requested_terminates_loop sampleInitCtx [Event.Other] [Event.Resized 9 9] rfl

/-- C8: the adapter request never permits a fallback adapter, and when
the adapter request or the device request fails, `run` exits fatally
with the corresponding diagnostic and the event loop is never
entered. -/
theorem gpu_acquisition_failure_is_fatal (env : Env) (events : List Event)
    (m : MonitorSize) (hm : env.primary_monitor = some m)
    (h1 : 1024 ≤ m.width) (h2 : m.width ≤ u32Max) :
    requestAdapterOptions.force_fallback_adapter = false ∧
    RunError.message RunError.AdapterNotFound = "Failed to find an appropriate adapter" ∧
    RunError.message RunError.DeviceRequestFailed = "Failed to create device" ∧
    (env.request_adapter requestAdapterOptions = none →
      run env events = Except.error RunError.AdapterNotFound) ∧
    (∀ a : Adapter, env.request_adapter requestAdapterOptions = some a →
      env.request_device a = none →
      run env events = Except.error RunError.DeviceRequestFailed) := by
  have hw := create_window_ok m.width m.height h1 h2
  refine ⟨rfl, rfl, rfl, ?_, ?_⟩
  · intro ha
    simp [run, hm, hw, RenderContext.new, ha]
  · intro a ha hd
    simp [run, hm, hw, RenderContext.new, ha, hd]

/-- Witness for C8 in the environments with no adapter and with a
failing device request. -/
theorem gpu_acquisition_failure_is_fatal_witness :
    run envNoAdapter [] = Except.error RunError.AdapterNotFound ∧
    run envNoDevice [] = Except.error RunError.DeviceRequestFailed :=
  ⟨(gpu_acquisition_failure_is_fatal envNoAdapter [] ⟨1920, 1080⟩ rfl (by decide)
      (by decide)).2.2.2.1 rfl,
   (gpu_acquisition_failure_is_fatal envNoDevice [] ⟨1920, 1080⟩ rfl (by decide)
      (by decide)).2.2.2.2 { preferred_format := some sampleFormat } rfl rfl⟩

/-- C9: handling a resize event changes only the width and height of
the stored surface configuration; its format, usage and present mode,
and the surface, device, queue and pipeline fields of the context are
all unchanged. -/
theorem resize_mutates_only_config_dimensions (ctx : RenderContext) (W H : Nat) :
    (handleResize ctx W H).surface_config.width = W ∧
    (handleResize ctx W H).surface_config.height = H ∧
    (handleResize ctx W H).surface_config.format = ctx.surface_config.format ∧
    (handleResize ctx W H).surface_config.usage = ctx.surface_config.usage ∧
    (handleResize ctx W H).surface_config.present_mode = ctx.surface_config.present_mode ∧
    (handleResize ctx W H).surface = ctx.surface ∧
    (handleResize ctx W H).device = ctx.device ∧
    (handleResize ctx W H).queue = ctx.queue ∧
    (handleResize ctx W H).render_pipeline = ctx.render_pipeline :=
  ⟨rfl, rfl, rfl, rfl, rfl, rfl, rfl, rfl, rfl⟩

/-- C10: the Resized handler performs no validation: every delivered
size, including zero width or height, is stored into the surface
configuration and applied to the surface without any error. -/
theorem resize_handler_accepts_zero_size (ctx : RenderContext) (W H : Nat) :
    handleEvent ctx (Event.Resized W H) =
      StepResult.next (handleResize ctx W H)
        [Action.Reconfigured (handleResize ctx W H).surface_config] ∧
    (handleResize ctx 0 0).surface_config.width = 0 ∧
    (handleResize ctx 0 0).surface_config.height = 0 ∧
    (handleResize ctx 0 0).applied_config = some (handleResize ctx 0 0).surface_config :=
  ⟨rfl, rfl, rfl, rfl⟩

end MGraphics
